import Mathlib

/-!
Verification of `make_map.py` (GoogleMapForFather): a shallow embedding of
the address normalizer, the Yandex geocoder loop, the geocode cache and the
map-building pipeline, together with theorems settling the specified
properties.

Python strings are modelled as `String` (UTF-8 `List Char` underneath);
Python mutable dicts as association lists with in-place update semantics;
the network (HTTP requests to the geocoder, including the API key) as an
oracle `String → Option GeoResult` where `none` covers both a raised
exception and an empty `featureMember` list; Python floats as rationals
(no claim depends on rounding).
-/

namespace MakeMap

/-- The six ASCII whitespace characters stripped by Python `str.strip()`
(the addresses in scope contain no exotic Unicode whitespace). -/
def wsChar (c : Char) : Bool :=
  c = ' ' || c = '\t' || c = '\n' || c = '\r' || c = '\x0b' || c = '\x0c'

/-- Left part of Python `str.strip()`: drop leading whitespace. -/
def pyStripLeft (l : List Char) : List Char := l.dropWhile wsChar

/-- Right part of Python `str.strip()`: drop trailing whitespace. -/
def pyStripRight (l : List Char) : List Char := (l.reverse.dropWhile wsChar).reverse

/-- Python `str.strip()` with no argument. -/
def pyStrip (l : List Char) : List Char := pyStripRight (pyStripLeft l)

/-- `pyStrip` on `String`. -/
def pyStripStr (s : String) : String := ⟨pyStrip s.data⟩

/-- Python `str.replace(pat, rep)`: replace all non-overlapping occurrences
left to right.  Structured with a fuel argument (one unit per consumed
character) so that the kernel can evaluate it; `pyReplace` below supplies
fuel equal to the string length, which suffices for non-empty patterns,
and every pattern in the source is non-empty. -/
def replFuel (pat rep : List Char) : Nat → List Char → List Char
  | _, [] => []
  | 0, l => l
  | fuel + 1, c :: cs =>
    if pat.isPrefixOf (c :: cs) then
      rep ++ replFuel pat rep fuel ((c :: cs).drop pat.length)
    else
      c :: replFuel pat rep fuel cs

/-- Python `str.replace` on character lists. -/
def pyReplace (pat rep l : List Char) : List Char := replFuel pat rep l.length l

/-- Python `sub in s` substring test. -/
def pyContains (sub : List Char) : List Char → Bool
  | [] => sub.isEmpty
  | c :: cs => sub.isPrefixOf (c :: cs) || pyContains sub cs

/-- `normalize_address` from `make_map.py` on character lists: the exact
chain of `str.replace` calls followed by `strip()`. -/
def normList (l : List Char) : List Char :=
  pyStrip
    (pyReplace ("  ".data) (" ".data)
      (pyReplace (",".data) (" ".data)
        (pyReplace (" г ".data) (" ".data)
          (pyReplace ("г.".data) ("".data)
            (pyReplace ("пл.".data) ("площадь".data)
              (pyReplace ("пер.".data) ("переулок".data)
                (pyReplace ("пр.".data) ("проезд".data)
                  (pyReplace ("пр-т".data) ("проспект".data)
                    (pyReplace ("ул ".data) ("улица ".data)
                      (pyReplace ("ул.".data) ("улица".data)
                        (pyReplace ("д ".data) ("дом ".data)
                          (pyReplace ("д.".data) ("дом".data) l))))))))))))

/-- `normalize_address` from `make_map.py`. -/
def normalize_address (s : String) : String := ⟨normList s.data⟩

/-- A successful Yandex geocoder response for one query, as built at the
`return` in `geocode`: latitude, longitude (Python floats, modelled as
rationals) and the full name text.  The structure has no precision-tier
field because the source records none. -/
structure GeoResult where
  lat : Rat
  lon : Rat
  full_name : String
deriving DecidableEq, Repr

/-- The network backend: one HTTP query string to the geocoder, to
`some` result or `none` (a raised exception — timeout, HTTP error, parse
error — or an empty `featureMember` list; both make the loop continue).
The API key and the `requests` session are part of the oracle. -/
def Oracle : Type := String → Option GeoResult

/-- The `address_variants` list built at the top of `geocode`:
optionally `f"{place}, {addr_norm}"` (when `place` is non-empty and not a
substring of the normalized address), then the normalized address, then
the raw address. -/
def addressVariants (addr place : String) : List String :=
  let addr_norm := normalize_address addr
  (if place.data ≠ [] ∧ pyContains place.data addr_norm.data = false then
    [place ++ ", " ++ addr_norm]
  else []) ++ [addr_norm, addr]

/-- The `tries` list of `geocode`: every address variant combined with
every region (plus `"Россия"`) as `f"{base}, {region} область"` and
`f"{base}, {region}"`, followed by the bare variant. -/
def tries_list (addr place : String) (regions : List String) : List String :=
  (addressVariants addr place).flatMap (fun base =>
    ((regions ++ ["Россия"]).flatMap (fun region =>
      [base ++ ", " ++ region ++ " область", base ++ ", " ++ region]))
    ++ [base])

/-- The query loop of `geocode`: strip each query, skip empty and
already-tried ones, add to the `tried` set, ask the backend, return on
the first success, otherwise (exception or no features) continue. -/
def geocodeLoop (o : Oracle) : List String → List String → Option GeoResult
  | _, [] => none
  | tried, q :: rest =>
    let q' := pyStripStr q
    if q'.data = [] ∨ q' ∈ tried then geocodeLoop o tried rest
    else
      match o q' with
      | some r => some r
      | none => geocodeLoop o (tried ++ [q']) rest

/-- `geocode` from `make_map.py` (the API key is folded into the oracle). -/
def geocode (o : Oracle) (addr place : String) (regions : List String) :
    Option GeoResult :=
  geocodeLoop o [] (tries_list addr place regions)

/-- The candidate queries actually submitted to the backend, in order:
each entry of `tries`, stripped, with empty ones removed (duplicates are
kept here; the loop's `tried` set only prevents re-asking the oracle the
same question, which cannot change the answer). -/
def candidateQueries (addr place : String) (regions : List String) :
    List String :=
  ((tries_list addr place regions).map pyStripStr).filter (fun q => q.data ≠ [])

/-! ### MD5 (`hashlib.md5`), over natural numbers

`get_color` hashes the mechanic's name with MD5 and indexes a fixed
palette with the digest modulo the palette size.  The algorithm below is
RFC 1321 MD5 with 32-bit words represented as naturals reduced modulo
`2 ^ 32`. -/

/-- UTF-8 encoding of one code point (`str.encode()` works per code
point; `Char` is a Unicode scalar value, as in Python). -/
def utf8Bytes (c : Nat) : List Nat :=
  if c < 0x80 then [c]
  else if c < 0x800 then [0xC0 + c / 0x40, 0x80 + c % 0x40]
  else if c < 0x10000 then
    [0xE0 + c / 0x1000, 0x80 + (c / 0x40) % 0x40, 0x80 + c % 0x40]
  else
    [0xF0 + c / 0x40000, 0x80 + (c / 0x1000) % 0x40,
     0x80 + (c / 0x40) % 0x40, 0x80 + c % 0x40]

/-- `name.encode()`: the UTF-8 bytes of a string. -/
def strBytes (s : String) : List Nat := s.data.flatMap (fun ch => utf8Bytes ch.toNat)

/-- Reduce modulo `2 ^ 32` (32-bit word arithmetic). -/
def w32 (x : Nat) : Nat := x % 4294967296

/-- 32-bit bitwise complement. -/
def not32 (x : Nat) : Nat := Nat.xor (w32 x) 4294967295

/-- 32-bit left rotation by `n` (for `n ≤ 32`). -/
def rotl32 (x n : Nat) : Nat := w32 (x * 2 ^ n) + (w32 x) / 2 ^ (32 - n)

/-- The 64 MD5 sine-table constants `K[i]` of RFC 1321. -/
def md5K : List Nat :=
  [0xd76aa478, 0xe8c7b756, 0x242070db, 0xc1bdceee,
   0xf57c0faf, 0x4787c62a, 0xa8304613, 0xfd469501,
   0x698098d8, 0x8b44f7af, 0xffff5bb1, 0x895cd7be,
   0x6b901122, 0xfd987193, 0xa679438e, 0x49b40821,
   0xf61e2562, 0xc040b340, 0x265e5a51, 0xe9b6c7aa,
   0xd62f105d, 0x02441453, 0xd8a1e681, 0xe7d3fbc8,
   0x21e1cde6, 0xc33707d6, 0xf4d50d87, 0x455a14ed,
   0xa9e3e905, 0xfcefa3f8, 0x676f02d9, 0x8d2a4c8a,
   0xfffa3942, 0x8771f681, 0x6d9d6122, 0xfde5380c,
   0xa4beea44, 0x4bdecfa9, 0xf6bb4b60, 0xbebfbc70,
   0x289b7ec6, 0xeaa127fa, 0xd4ef3085, 0x04881d05,
   0xd9d4d039, 0xe6db99e5, 0x1fa27cf8, 0xc4ac5665,
   0xf4292244, 0x432aff97, 0xab9423a7, 0xfc93a039,
   0x655b59c3, 0x8f0ccc92, 0xffeff47d, 0x85845dd1,
   0x6fa87e4f, 0xfe2ce6e0, 0xa3014314, 0x4e0811a1,
   0xf7537e82, 0xbd3af235, 0x2ad7d2bb, 0xeb86d391]

/-- The 64 MD5 per-round left-rotation amounts `s[i]`. -/
def md5S : List Nat :=
  [7, 12, 17, 22, 7, 12, 17, 22, 7, 12, 17, 22, 7, 12, 17, 22,
   5, 9, 14, 20, 5, 9, 14, 20, 5, 9, 14, 20, 5, 9, 14, 20,
   4, 11, 16, 23, 4, 11, 16, 23, 4, 11, 16, 23, 4, 11, 16, 23,
   6, 10, 15, 21, 6, 10, 15, 21, 6, 10, 15, 21, 6, 10, 15, 21]

/-- The MD5 round function `F` for round index `i`. -/
def md5F (i b c d : Nat) : Nat :=
  if i < 16 then Nat.lor (Nat.land b c) (Nat.land (not32 b) d)
  else if i < 32 then Nat.lor (Nat.land d b) (Nat.land (not32 d) c)
  else if i < 48 then Nat.xor b (Nat.xor c d)
  else Nat.xor c (Nat.lor b (not32 d))

/-- The MD5 message-word index `g` for round index `i`. -/
def md5G (i : Nat) : Nat :=
  if i < 16 then i
  else if i < 32 then (5 * i + 1) % 16
  else if i < 48 then (3 * i + 5) % 16
  else (7 * i) % 16

/-- One MD5 round on state `(a, b, c, d)` with message words `m`. -/
def md5Round (m : List Nat) (st : Nat × Nat × Nat × Nat) (i : Nat) :
    Nat × Nat × Nat × Nat :=
  let (a, b, c, d) := st
  let f := w32 (md5F i b c d + a + md5K.getD i 0 + m.getD (md5G i) 0)
  (d, w32 (b + rotl32 f (md5S.getD i 0)), b, c)

/-- Group a 64-byte block into 16 little-endian 32-bit words. -/
def toWords : List Nat → List Nat
  | b0 :: b1 :: b2 :: b3 :: rest =>
    (b0 + 256 * b1 + 65536 * b2 + 16777216 * b3) :: toWords rest
  | _ => []

/-- Process one 64-byte block: 64 rounds, then add into the state. -/
def md5Block (st : Nat × Nat × Nat × Nat) (block : List Nat) :
    Nat × Nat × Nat × Nat :=
  let m := toWords block
  let (a, b, c, d) := (List.range 64).foldl (md5Round m) st
  (w32 (st.1 + a), w32 (st.2.1 + b), w32 (st.2.2.1 + c), w32 (st.2.2.2 + d))

/-- `n` as `k` little-endian bytes (truncating above `256 ^ k`). -/
def leBytes (n : Nat) : Nat → List Nat
  | 0 => []
  | k + 1 => n % 256 :: leBytes (n / 256) k

/-- MD5 padding: `0x80`, zeros to 56 mod 64, then the bit length as 8
little-endian bytes. -/
def md5Pad (msg : List Nat) : List Nat :=
  msg ++ 0x80 :: List.replicate ((119 - msg.length % 64) % 64) 0
      ++ leBytes (8 * msg.length) 8

/-- Fold the padded message block by block (`nblocks` = length / 64). -/
def md5Loop (st : Nat × Nat × Nat × Nat) (bytes : List Nat) :
    Nat → Nat × Nat × Nat × Nat
  | 0 => st
  | n + 1 => md5Loop (md5Block st (bytes.take 64)) (bytes.drop 64) n

/-- The 16 digest bytes of a message. -/
def md5Digest (msg : List Nat) : List Nat :=
  let p := md5Pad msg
  let (a, b, c, d) :=
    md5Loop (0x67452301, 0xefcdab89, 0x98badcfe, 0x10325476) p (p.length / 64)
  leBytes a 4 ++ leBytes b 4 ++ leBytes c 4 ++ leBytes d 4

/-- `int(hashlib.md5(msg).hexdigest(), 16)`: the digest bytes read as one
big-endian number. -/
def md5Int (msg : List Nat) : Nat :=
  (md5Digest msg).foldl (fun acc b => acc * 256 + b) 0

/-- The 19-color folium palette of `get_color`. -/
def palette : List String :=
  ["red", "blue", "green", "orange", "purple", "darkred", "lightred",
   "beige", "darkblue", "darkgreen", "cadetblue", "darkpurple", "white",
   "pink", "lightblue", "lightgreen", "gray", "black", "lightgray"]

/-- `get_color` from `make_map.py`: MD5 of the UTF-8 name modulo the
palette size selects the color (the index is always in range, so the
`getD` default is never used). -/
def get_color (name : String) : String :=
  palette.getD (md5Int (strBytes name) % palette.length) "red"

/-! ### Cache, rows and the map-building pipeline -/

/-- The geocode cache `Dict[str, Any]`: an insertion-ordered association
list from address string to `some` result or `none` (JSON `null`, the
explicit miss marker). -/
abbrev Cache : Type := List (String × Option GeoResult)

/-- `cache.get(addr)`: Python's `dict.get` returns `None` both for an
absent key and for a key stored with value `None`. -/
def cacheGet (c : Cache) (k : String) : Option GeoResult :=
  match List.lookup k c with
  | some v => v
  | none => none

/-- `cache[addr] = v`: update in place if the key exists, else append
(Python dicts keep insertion order). -/
def cacheSet (c : Cache) (k : String) (v : Option GeoResult) : Cache :=
  if (List.lookup k c).isSome then
    c.map (fun p => if p.1 = k then (k, v) else p)
  else c ++ [(k, v)]

/-- One spreadsheet row, restricted to the columns the pipeline branches
on (`"Адрес"`, `"Населенный пункт"`, `"Механик КТО"` after
`normalize_cols`; the popup-only columns do not influence any claim and
are omitted). -/
structure Row where
  addr : String
  place : String
  kto : String
deriving DecidableEq, Repr

/-- The mutable state threaded through the row loop of `build_map`. -/
structure BuildState where
  cache : Cache
  misses : List String
  marks : List (Rat × Rat × Row)

/-- The body of the main row loop of `build_map`: empty address becomes
the literal miss `"<пустой адрес>"`; otherwise look up the cache, apply
the (no-op) flush branch, geocode when the cached value is falsy, store
the result back under the raw stripped address, and record a mark or a
miss. -/
def processRow (o : Oracle) (regions : List String) (flush : Bool)
    (st : BuildState) (row : Row) : BuildState :=
  let addr := pyStripStr row.addr
  let place := pyStripStr row.place
  if addr.data = [] then
    { st with misses := st.misses ++ ["<пустой адрес>"] }
  else
    let cached := cacheGet st.cache addr
    -- `if flush and cached is None: cached = None  # force retry`
    let cached := if flush ∧ cached = none then none else cached
    -- `resolved = cached if cached else geocode(...)`: a result dict is
    -- truthy, `None` is falsy
    let resolved :=
      match cached with
      | some v => some v
      | none => geocode o addr place regions
    let cache' := cacheSet st.cache addr resolved
    match resolved with
    | none =>
      { st with
        cache := cache'
        misses := st.misses ++
          [if place.data = [] then addr else place ++ ", " ++ addr] }
    | some r =>
      { st with cache := cache', marks := st.marks ++ [(r.lat, r.lon, row)] }

/-- The first loop of `build_map`: collect `kto_to_color`, assigning each
distinct non-empty stripped mechanic name its `get_color` (inside the
guard `kto` is non-empty, so `kto or "default"` is `kto`). -/
def ktoColors (rows : List Row) : List (String × String) :=
  rows.foldl
    (fun acc row =>
      let kto := pyStripStr row.kto
      if kto.data ≠ [] ∧ (List.lookup kto acc).isNone then
        acc ++ [(kto, get_color kto)]
      else acc)
    []

/-- The rendered map, restricted to what the claims mention: the centroid
used as the initial view and one `(lat, lon, color)` marker per resolved
row (popup HTML and the legend are presentation only). -/
structure MapModel where
  center : Rat × Rat
  markers : List (Rat × Rat × String)
deriving DecidableEq, Repr

/-- `build_map` from `make_map.py`.  Returns the `RuntimeError` as
`Except.error` together with the cache as mutated so far (Python mutates
the dict in place, so the caller's cache is updated even on the raise). -/
def build_map (o : Oracle) (regions : List String) (flush : Bool)
    (cache : Cache) (rows : List Row) :
    Except String (MapModel × List String) × Cache :=
  let colors := ktoColors rows
  let st := rows.foldl (processRow o regions flush) ⟨cache, [], []⟩
  if st.marks = [] then
    (Except.error "Nothing resolved – check API key or regions", st.cache)
  else
    let n : Rat := st.marks.length
    let avgLat := (st.marks.map (fun m => m.1)).sum / n
    let avgLon := (st.marks.map (fun m => m.2.1)).sum / n
    let markers := st.marks.map (fun m =>
      let kto := pyStripStr m.2.2.kto
      let color :=
        match List.lookup (if kto.data = [] then "default" else kto) colors with
        | some c => c
        | none => "blue"
      (m.1, m.2.1, color))
    (Except.ok ({ center := (avgLat, avgLon), markers := markers }, st.misses),
     st.cache)

/-- `load_cache` from `make_map.py`.  The file system is `none` when the
path does not exist, `some txt` for its text; `json.loads` (with the
required dict shape) is the parameter `parse`, `none` meaning a
`json.JSONDecodeError`.  Result: the cache and whether the broken-cache
warning was printed.  It is a total function: no input raises. -/
def load_cache (file : Option String) (parse : String → Option Cache) :
    Cache × Bool :=
  match file with
  | none => ([], false)
  | some txt =>
    match parse txt with
    | some c => (c, false)
    | none => ([], true)

/-- The externally visible outcome of one `main` run: the cache file
content after the run, the rendered map if one was saved, the
`missed_addresses.xlsx` content if written, and whether the fatal
`[err]` line was printed. -/
structure WorldAfter where
  cacheFile : Option String
  mapFile : Option MapModel
  reportFile : Option (List String)
  errPrinted : Bool
deriving DecidableEq, Repr

/-- `main` from `make_map.py` after argument parsing: load the cache,
build the map; on `RuntimeError` print the error and return (no file is
touched); otherwise save the cache (write-temp-then-rename, so the net
content is the serialized cache), save the map, and write the unresolved
report when `bad` is non-empty.  `serialize` models `json.dumps`. -/
def main_run (o : Oracle) (parse : String → Option Cache)
    (serialize : Cache → String) (regions : List String) (flush : Bool)
    (rows : List Row) (diskCache : Option String) : WorldAfter :=
  let cache := (load_cache diskCache parse).1
  match build_map o regions flush cache rows with
  | (Except.error _, _) =>
    { cacheFile := diskCache, mapFile := none, reportFile := none
      errPrinted := true }
  | (Except.ok (fmap, bad), cache') =>
    { cacheFile := some (serialize cache')
      mapFile := some fmap
      reportFile := if bad ≠ [] then some bad else none
      errPrinted := false }

/-- A concrete backend for counterexamples: every query resolves to one
fixed point (roughly Saratov). -/
def hitBackend : Oracle := fun _ => some ⟨51, 46, "Россия, Саратов"⟩

/-- A concrete backend that succeeds only on the street-level query
`"Ленина"` — the query the spec's street tier would produce from
`"Ленина 5"` by stripping the trailing house-number token — and fails on
everything else. -/
def streetOnlyBackend : Oracle :=
  fun q => if q = "Ленина" then some ⟨51, 46, "улица Ленина"⟩ else none

/-! ## Lemmas -/

lemma normalize_address_data (s : String) :
    (normalize_address s).data = normList s.data := by
  unfold normalize_address
  with_reducible rfl

lemma head?_dropWhile_ws (l : List Char) (c : Char)
    (h : (l.dropWhile wsChar).head? = some c) : wsChar c = false := by
  induction l with
  | nil => simp [List.dropWhile] at h
  | cons a as ih =>
    rw [List.dropWhile_cons] at h
    by_cases ha : wsChar a
    · rw [if_pos ha] at h
      exact ih h
    · rw [if_neg ha] at h
      simp at h
      rw [← h]
      exact Bool.of_not_eq_true ha

lemma pyStripRight_initial (l : List Char) : pyStripRight l <+: l := by
  rw [pyStripRight, ← List.reverse_suffix, List.reverse_reverse]
  exact List.dropWhile_suffix _

lemma head?_of_initial {l t : List Char} {c : Char} (hp : l <+: t)
    (h : l.head? = some c) : t.head? = some c := by
  obtain ⟨s, hs⟩ := hp
  cases l with
  | nil => simp at h
  | cons a as =>
    simp at h
    rw [← hs]
    simp [h]

lemma head?_pyStrip (l : List Char) (c : Char)
    (h : (pyStrip l).head? = some c) : wsChar c = false := by
  have h2 : (pyStripLeft l).head? = some c :=
    head?_of_initial (pyStripRight_initial _) h
  exact head?_dropWhile_ws l c h2

lemma getLast?_pyStrip (l : List Char) (c : Char)
    (h : (pyStrip l).getLast? = some c) : wsChar c = false := by
  rw [pyStrip, pyStripRight, List.getLast?_reverse] at h
  exact head?_dropWhile_ws _ c h

lemma findSome?_eq_none_iff {α β : Type} (f : α → Option β) (l : List α) :
    l.findSome? f = none ↔ ∀ x ∈ l, f x = none := by
  induction l with
  | nil => simp [List.findSome?]
  | cons a as ih =>
    rw [List.findSome?_cons]
    cases hfa : f a with
    | some b => simp [hfa]
    | none => simp [hfa, ih]

lemma geocodeLoop_eq_findSome (o : Oracle) :
    ∀ (qs tried : List String), (∀ q ∈ tried, o q = none) →
      geocodeLoop o tried qs =
        ((qs.map pyStripStr).filter (fun q => q.data ≠ [])).findSome? o := by
  intro qs
  induction qs with
  | nil =>
    intro tried _
    simp [geocodeLoop]
  | cons q rest ih =>
    intro tried htried
    by_cases hq : (pyStripStr q).data = []
    · rw [geocodeLoop, if_pos (Or.inl hq), List.map_cons, List.filter_cons,
        if_neg (by simp [hq])]
      exact ih tried htried
    · by_cases hmem : pyStripStr q ∈ tried
      · rw [geocodeLoop, if_pos (Or.inr hmem), List.map_cons, List.filter_cons,
          if_pos (by simp [hq]), List.findSome?_cons, htried _ hmem]
        exact ih tried htried
      · rw [geocodeLoop, if_neg (by push_neg; exact ⟨hq, hmem⟩),
          List.map_cons, List.filter_cons, if_pos (by simp [hq]),
          List.findSome?_cons]
        cases ho : o (pyStripStr q) with
        | some r => rfl
        | none =>
          refine ih (tried ++ [pyStripStr q]) ?_
          intro x hx
          rcases List.mem_append.mp hx with h1 | h1
          · exact htried x h1
          · simp at h1
            rw [h1]
            exact ho

lemma flush_noop (p : Prop) [Decidable p] (c : Option GeoResult) :
    (if p ∧ c = none then none else c) = c := by
  cases c <;> simp

lemma processRow_empty (o : Oracle) (regions : List String) (flush : Bool)
    (st : BuildState) (row : Row) (h : (pyStripStr row.addr).data = []) :
    processRow o regions flush st row =
      { st with misses := st.misses ++ ["<пустой адрес>"] } := by
  rw [processRow, if_pos h]

lemma processRow_resolved (o : Oracle) (regions : List String) (flush : Bool)
    (st : BuildState) (row : Row) (pt : GeoResult)
    (h : ¬ (pyStripStr row.addr).data = [])
    (hres : (match cacheGet st.cache (pyStripStr row.addr) with
             | some v => some v
             | none => geocode o (pyStripStr row.addr) (pyStripStr row.place) regions)
            = some pt) :
    processRow o regions flush st row =
      { st with
        cache := cacheSet st.cache (pyStripStr row.addr) (some pt)
        marks := st.marks ++ [(pt.lat, pt.lon, row)] } := by
  rw [processRow, if_neg h]
  simp only [flush_noop]
  rw [hres]

lemma build_map_ok (o : Oracle) (regions : List String) (flush : Bool)
    (cache : Cache) (rows : List Row) (st : BuildState)
    (hst : rows.foldl (processRow o regions flush) ⟨cache, [], []⟩ = st)
    (hmk : ¬ st.marks = []) :
    build_map o regions flush cache rows =
      (Except.ok
        ({ center := ((st.marks.map (fun m => m.1)).sum / (st.marks.length : Rat),
                      (st.marks.map (fun m => m.2.1)).sum / (st.marks.length : Rat))
           markers := st.marks.map (fun m =>
             (m.1, m.2.1,
              match List.lookup
                  (if (pyStripStr m.2.2.kto).data = [] then "default"
                   else pyStripStr m.2.2.kto) (ktoColors rows) with
              | some c => c
              | none => "blue")) },
         st.misses), st.cache) := by
  simp only [build_map]
  rw [hst, if_neg hmk]

lemma main_run_ok (o : Oracle) (parse : String → Option Cache)
    (serialize : Cache → String) (regions : List String) (flush : Bool)
    (rows : List Row) (diskCache : Option String) (m : MapModel)
    (bad : List String) (c : Cache)
    (hbm : build_map o regions flush (load_cache diskCache parse).1 rows =
      (Except.ok (m, bad), c)) :
    main_run o parse serialize regions flush rows diskCache =
      { cacheFile := some (serialize c), mapFile := some m
        reportFile := if bad ≠ [] then some bad else none
        errPrinted := false } := by
  rw [main_run, hbm]

/-! ## Claims -/

/-- Claim C1 (corrected): the claim as stated is false — see
`normalize_address_keeps_postal_code`.  What is true of the source: the
final `strip()` guarantees the normalizer's output never begins or ends
with a whitespace character; no country/locality string is prepended and
postal codes are not removed. -/
theorem normalize_address_strips_outer_whitespace (a : String) (c : Char) :
    ((normalize_address a).data.head? = some c → wsChar c = false) ∧
    ((normalize_address a).data.getLast? = some c → wsChar c = false) := by
  constructor <;> intro h <;> rw [normalize_address_data, normList] at h
  · exact head?_pyStrip _ c h
  · exact getLast?_pyStrip _ c h

/-- Witness for `normalize_address_strips_outer_whitespace` at the input
`" ул. Ленина "` (normalized to `"улица Ленина"`). -/
theorem normalize_address_strips_outer_whitespace_witness :
    (normalize_address " ул. Ленина ").data.head? = some 'у' ∧
    (normalize_address " ул. Ленина ").data.getLast? = some 'а' ∧
    wsChar 'у' = false ∧ wsChar 'а' = false :=
  ⟨by decide, by decide,
   (normalize_address_strips_outer_whitespace " ул. Ленина " 'у').1 (by decide),
   (normalize_address_strips_outer_whitespace " ул. Ленина " 'а').2 (by decide)⟩

/-- Claim C1, counterexample: on the address `"410012, ул. Ленина"` the
normalizer's output is `"410012 улица Ленина"`: it still contains the raw
postal code `410012` (indeed starts with it) and does not begin with any
country/locality prefix such as `"Россия"`. -/
theorem normalize_address_keeps_postal_code :
    normalize_address "410012, ул. Ленина" = "410012 улица Ленина" ∧
    pyContains ("410012".data) ((normalize_address "410012, ул. Ленина").data)
      = true ∧
    ("Россия".data).isPrefixOf ((normalize_address "410012, ул. Ленина").data)
      = false :=
  ⟨rfl, by decide, by decide⟩

/-- Claim C2 (corrected): the claim as stated is false — see
`geocode_missing_street_tier`.  What is true of the source: `geocode`
submits the template combinations of `tries_list` (each stripped, empty
and repeated queries skipped) and returns a miss exactly when every
non-empty stripped candidate fails; there is no house-number stripping,
no city tier, and the result carries no precision tier. -/
theorem geocode_none_iff_all_template_queries_fail (o : Oracle)
    (addr place : String) (regions : List String) :
    geocode o addr place regions = none ↔
      ∀ q ∈ tries_list addr place regions,
        (pyStripStr q).data ≠ [] → o (pyStripStr q) = none := by
  rw [geocode, geocodeLoop_eq_findSome o _ [] (by simp), findSome?_eq_none_iff]
  constructor
  · intro h q hq hne
    refine h (pyStripStr q) ?_
    rw [List.mem_filter]
    exact ⟨List.mem_map_of_mem _ hq, by simpa using hne⟩
  · intro h x hx
    rw [List.mem_filter] at hx
    obtain ⟨hx1, hx2⟩ := hx
    obtain ⟨q, hq, rfl⟩ := List.mem_map.mp hx1
    exact h q hq (by simpa using hx2)

/-- Claim C2, counterexample: for the address `"Ленина 5"` (no place, no
regions) with a backend that succeeds exactly on the street-tier query
`"Ленина"` — the full query minus its trailing house-number token —
`geocode` returns `none`: the progressive house → street → city fallback
of the claim does not exist in the code. -/
theorem geocode_missing_street_tier :
    streetOnlyBackend "Ленина" = some ⟨51, 46, "улица Ленина"⟩ ∧
    geocode streetOnlyBackend "Ленина 5" "" [] = none :=
  ⟨rfl, rfl⟩

/-- Claim C3 (code bug): the line `if flush and cached is None: cached =
None` is a no-op, so the `--flush` flag has no effect at all (first
conjunct), and an address cached with the explicit miss marker `None` is
re-queried even without the flush flag: with a cache holding
`("улица Ленина дом 5", null)` and `flush = False`, the backend is asked
again and its answer overwrites the miss (second conjunct), contradicting
the flag's own help text `"requery addresses cached as None"`. -/
theorem flush_has_no_effect_and_cached_miss_requeried :
    (∀ (o : Oracle) (regions : List String) (st : BuildState) (row : Row),
      processRow o regions true st row = processRow o regions false st row) ∧
    processRow hitBackend [] false
        ⟨[("улица Ленина дом 5", none)], [], []⟩ ⟨"улица Ленина дом 5", "", ""⟩ =
      ⟨[("улица Ленина дом 5", some ⟨51, 46, "Россия, Саратов"⟩)], [],
       [(51, 46, ⟨"улица Ленина дом 5", "", ""⟩)]⟩ := by
  constructor
  · intro o regions st row
    rw [processRow, processRow]
    simp only [flush_noop]
  · rfl

/-- Claim C4 (corrected): the claim as stated is false — see
`cache_key_is_raw_not_normalized`.  What is true of the source: every
cache update of the row loop is keyed by the raw spreadsheet address
stripped of surrounding whitespace (the same key used for the lookup);
`normalize_address` is applied only inside `geocode` to build query
candidates. -/
theorem processRow_cache_update_keyed_by_stripped_raw_address (o : Oracle)
    (regions : List String) (flush : Bool) (st : BuildState) (row : Row) :
    (processRow o regions flush st row).cache = st.cache ∨
    ∃ v, (processRow o regions flush st row).cache =
      cacheSet st.cache (pyStripStr row.addr) v := by
  by_cases h : (pyStripStr row.addr).data = []
  · left
    rw [processRow_empty _ _ _ _ _ h]
  · right
    rw [processRow, if_neg h]
    simp only [flush_noop]
    cases hres : (match cacheGet st.cache (pyStripStr row.addr) with
        | some v => some v
        | none => geocode o (pyStripStr row.addr) (pyStripStr row.place) regions) with
    | none => exact ⟨none, rfl⟩
    | some r => exact ⟨some r, rfl⟩

/-- Claim C4, counterexample: a row with raw address `"ул. Ленина, 5"`
stores its geocode result in the cache under the raw key
`"ул. Ленина, 5"`, not under the normalizer's output
`"улица Ленина 5"`. -/
theorem cache_key_is_raw_not_normalized :
    (processRow hitBackend [] false ⟨[], [], []⟩ ⟨"ул. Ленина, 5", "", ""⟩).cache =
      [("ул. Ленина, 5", some ⟨51, 46, "Россия, Саратов"⟩)] ∧
    normalize_address "ул. Ленина, 5" = "улица Ленина 5" ∧
    ("ул. Ленина, 5" : String) ≠ "улица Ленина 5" :=
  ⟨rfl, rfl, by decide⟩

/-- Claim C5 (confirmed): when the row loop resolves zero rows to marks,
`build_map` raises the fatal `RuntimeError`, `main` prints the error, and
no map file is written. -/
theorem zero_resolved_error_reported_no_map_written (o : Oracle)
    (parse : String → Option Cache) (serialize : Cache → String)
    (regions : List String) (flush : Bool) (rows : List Row)
    (diskCache : Option String)
    (h : (rows.foldl (processRow o regions flush)
          ⟨(load_cache diskCache parse).1, [], []⟩).marks = []) :
    (build_map o regions flush (load_cache diskCache parse).1 rows).1 =
      Except.error "Nothing resolved – check API key or regions" ∧
    (main_run o parse serialize regions flush rows diskCache).mapFile = none ∧
    (main_run o parse serialize regions flush rows diskCache).errPrinted
      = true := by
  have hb : build_map o regions flush (load_cache diskCache parse).1 rows =
      (Except.error "Nothing resolved – check API key or regions",
       (rows.foldl (processRow o regions flush)
          ⟨(load_cache diskCache parse).1, [], []⟩).cache) := by
    rw [build_map, if_pos h]
  refine ⟨by rw [hb], ?_, ?_⟩ <;> rw [main_run, hb]

/-- Witness for `zero_resolved_error_reported_no_map_written`: a single
row with an empty address resolves nothing. -/
theorem zero_resolved_error_reported_no_map_written_witness :
    (build_map (fun _ => none) [] false
        (load_cache none (fun _ => none)).1 [⟨"", "", ""⟩]).1 =
      Except.error "Nothing resolved – check API key or regions" ∧
    (main_run (fun _ => none) (fun _ => none) (fun _ => "") [] false
        [⟨"", "", ""⟩] none).mapFile = none ∧
    (main_run (fun _ => none) (fun _ => none) (fun _ => "") [] false
        [⟨"", "", ""⟩] none).errPrinted = true :=
  zero_resolved_error_reported_no_map_written (fun _ => none) (fun _ => none)
    (fun _ => "") [] false [⟨"", "", ""⟩] none rfl

/-- Claim C6 (confirmed): within one `geocode` call a backend failure on
a candidate query (exception or empty feature list, i.e. `o q = none`)
just moves on to the remaining candidates; the call returns the first
candidate's success and `none` exactly when every candidate fails — i.e.
the loop is `findSome?` over the stripped non-empty candidate queries. -/
theorem geocode_returns_first_successful_candidate (o : Oracle)
    (addr place : String) (regions : List String) :
    geocode o addr place regions =
      (candidateQueries addr place regions).findSome? o :=
  geocodeLoop_eq_findSome o _ [] (by simp)

/-- Claim C7 (confirmed): `get_color` is a pure function of the name
string — equal inputs give equal colors, in any run, since the color is
determined by the MD5 digest — and its output is always one of the 19
palette colors. -/
theorem get_color_pure_function_into_palette (s t : String) (h : s = t) :
    get_color s = get_color t ∧ get_color s ∈ palette := by
  subst h
  refine ⟨rfl, ?_⟩
  rw [get_color]
  have hlt : md5Int (strBytes s) % palette.length < palette.length :=
    Nat.mod_lt _ (by decide)
  rw [List.getD_eq_getElem _ _ hlt]
  exact List.getElem_mem hlt

set_option maxRecDepth 4000 in
/-- Witness for `get_color_pure_function_into_palette` at `"Иванов"`,
whose MD5-derived palette index is 15 (`"lightgreen"`). -/
theorem get_color_pure_function_into_palette_witness :
    (get_color "Иванов" = get_color "Иванов" ∧ get_color "Иванов" ∈ palette) ∧
    get_color "Иванов" = "lightgreen" :=
  ⟨get_color_pure_function_into_palette "Иванов" "Иванов" rfl, by decide⟩

/-- Claim C8 (confirmed): `load_cache` is total (no input raises); a
missing cache file yields the empty cache with no warning, and an
existing file whose text `json.loads` rejects yields the empty cache with
the broken-cache warning printed. -/
theorem load_cache_missing_or_malformed_yields_empty
    (parse : String → Option Cache) (txt : String)
    (hbad : parse txt = none) :
    load_cache none parse = ([], false) ∧
    load_cache (some txt) parse = ([], true) := by
  refine ⟨rfl, ?_⟩
  rw [load_cache, hbad]

/-- Witness for `load_cache_missing_or_malformed_yields_empty` with a
parser that rejects the text `"not json"`. -/
theorem load_cache_missing_or_malformed_yields_empty_witness :
    load_cache none (fun _ => none) = ([], false) ∧
    load_cache (some "not json") (fun _ => none) = ([], true) :=
  load_cache_missing_or_malformed_yields_empty (fun _ => none) "not json" rfl

/-- Claim C9 (confirmed): a two-row run whose first row has a non-empty
address that resolves to a point and whose second row has the empty
address produces a saved map with exactly one marker and writes the
unresolved report containing exactly the literal placeholder
`"<пустой адрес>"`. -/
theorem two_row_run_one_marker_one_empty_miss (o : Oracle)
    (parse : String → Option Cache) (serialize : Cache → String)
    (regions : List String) (flush : Bool) (r1 r2 : Row)
    (diskCache : Option String) (pt : GeoResult)
    (h1 : ¬ (pyStripStr r1.addr).data = [])
    (hres : (match cacheGet (load_cache diskCache parse).1 (pyStripStr r1.addr) with
             | some v => some v
             | none => geocode o (pyStripStr r1.addr) (pyStripStr r1.place) regions)
            = some pt)
    (h2 : r2.addr = "") :
    ∃ m : MapModel,
      (main_run o parse serialize regions flush [r1, r2] diskCache).mapFile =
        some m ∧
      m.markers.length = 1 ∧
      (main_run o parse serialize regions flush [r1, r2] diskCache).reportFile =
        some ["<пустой адрес>"] := by
  have e1 : processRow o regions flush
      ⟨(load_cache diskCache parse).1, [], []⟩ r1 =
      ⟨cacheSet (load_cache diskCache parse).1 (pyStripStr r1.addr) (some pt),
       [], [(pt.lat, pt.lon, r1)]⟩ := by
    rw [processRow_resolved o regions flush _ r1 pt h1 hres]
    rfl
  have h2' : (pyStripStr r2.addr).data = [] := by
    rw [h2]
    rfl
  have e2 : processRow o regions flush
      ⟨cacheSet (load_cache diskCache parse).1 (pyStripStr r1.addr) (some pt),
       [], [(pt.lat, pt.lon, r1)]⟩ r2 =
      ⟨cacheSet (load_cache diskCache parse).1 (pyStripStr r1.addr) (some pt),
       ["<пустой адрес>"], [(pt.lat, pt.lon, r1)]⟩ := by
    rw [processRow_empty o regions flush _ r2 h2']
    rfl
  have hfold : [r1, r2].foldl (processRow o regions flush)
      ⟨(load_cache diskCache parse).1, [], []⟩ =
      ⟨cacheSet (load_cache diskCache parse).1 (pyStripStr r1.addr) (some pt),
       ["<пустой адрес>"], [(pt.lat, pt.lon, r1)]⟩ := by
    rw [List.foldl_cons, List.foldl_cons, List.foldl_nil, e1, e2]
  have hbm := build_map_ok o regions flush (load_cache diskCache parse).1
    [r1, r2] _ hfold (by simp)
  have hm := main_run_ok o parse serialize regions flush [r1, r2] diskCache
    _ _ _ hbm
  rw [hm]
  refine ⟨_, rfl, ?_, ?_⟩
  · simp
  · simp

/-- Witness for `two_row_run_one_marker_one_empty_miss`: a backend that
answers everything, a first row with address `"а"` and a second row with
the empty address. -/
theorem two_row_run_one_marker_one_empty_miss_witness :
    ∃ m : MapModel,
      (main_run (fun _ => some ⟨1, 2, "x"⟩) (fun _ => none) (fun _ => "")
        [] false [⟨"а", "", ""⟩, ⟨"", "", ""⟩] none).mapFile = some m ∧
      m.markers.length = 1 ∧
      (main_run (fun _ => some ⟨1, 2, "x"⟩) (fun _ => none) (fun _ => "")
        [] false [⟨"а", "", ""⟩, ⟨"", "", ""⟩] none).reportFile =
        some ["<пустой адрес>"] :=
  two_row_run_one_marker_one_empty_miss (fun _ => some ⟨1, 2, "x"⟩)
    (fun _ => none) (fun _ => "") [] false ⟨"а", "", ""⟩ ⟨"", "", ""⟩ none
    ⟨1, 2, "x"⟩ (by decide) rfl rfl

/-- Claim C10 (confirmed): when `build_map` aborts with the zero-resolved
`RuntimeError`, `main` returns before `save_cache`, so the on-disk cache
file keeps exactly its previous content and the run's in-memory cache
updates are discarded. -/
theorem fatal_error_skips_cache_save (o : Oracle)
    (parse : String → Option Cache) (serialize : Cache → String)
    (regions : List String) (flush : Bool) (rows : List Row)
    (diskCache : Option String) (e : String)
    (h : (build_map o regions flush (load_cache diskCache parse).1 rows).1 =
      Except.error e) :
    (main_run o parse serialize regions flush rows diskCache).cacheFile =
      diskCache := by
  rw [main_run]
  rcases hb : build_map o regions flush (load_cache diskCache parse).1 rows
    with ⟨res, c⟩
  rw [hb] at h
  simp only at h
  rw [h]

/-- Witness for `fatal_error_skips_cache_save`: the failing single-row
run leaves the (absent) cache file absent. -/
theorem fatal_error_skips_cache_save_witness :
    (main_run (fun _ => none) (fun _ => none) (fun _ => "") [] false
        [⟨"", "", ""⟩] none).cacheFile = none :=
  fatal_error_skips_cache_save (fun _ => none) (fun _ => none) (fun _ => "")
    [] false [⟨"", "", ""⟩] none
    "Nothing resolved – check API key or regions" rfl

end MakeMap
